import Mathlib

/-!
Verification of the MCP tool-call routing core of the Claudine server
(`app/infrastructure/services/mcp_distributor.py`,
`app/infrastructure/services/internal_mcp_handler.py`,
`app/infrastructure/services/intent_detector.py`).

The Python code is shallowly embedded: dictionaries become association
lists, optional values become `Option`, Python truthiness is modelled
explicitly, exceptions become an explicit `ExecOutcome` sum, and the two
I/O boundaries (the internal handler backed by a database session and the
external HTTP client) become oracle functions carried in an `Env` record.
Dispatch invocations are counted so that "never dispatches" statements
are meaningful.
-/

set_option autoImplicit false

/-- A single-quote character as a string (used in messages built by the
Python code with f-strings containing quotes). -/
def squo : String := String.mk [Char.ofNat 39]

/-- Zero-padded two-digit decimal rendering, as Python `f"{n:02d}"` for
`n < 100` (wider numbers print unpadded, as in Python). -/
def pad2 (n : Nat) : String := if n < 10 then "0" ++ toString n else toString n

/-- Zero-padded four-digit decimal rendering, as Python `strftime("%Y")`. -/
def pad4 (n : Nat) : String :=
  if n < 10 then "000" ++ toString n
  else if n < 100 then "00" ++ toString n
  else if n < 1000 then "0" ++ toString n
  else toString n

/-- ASCII lowercasing of a string; models Python `str.lower()` on the
ASCII inputs this subsystem handles. -/
def ascii_lower (s : String) : String := String.mk (s.toList.map Char.toLower)

/-- `starts_with_chars n h` is true when `n` is an initial segment of `h`. -/
def starts_with_chars : List Char → List Char → Bool
  | [], _ => true
  | _ :: _, [] => false
  | a :: as, b :: bs => a = b && starts_with_chars as bs

/-- `contains_chars n h` is true when `n` occurs contiguously inside `h`;
models Python `n in h` for strings. -/
def contains_chars (needle : List Char) : List Char → Bool
  | [] => starts_with_chars needle []
  | c :: rest => starts_with_chars needle (c :: rest) || contains_chars needle rest

/-- Substring test on strings, Python `needle in hay`. -/
def contains_sub (needle hay : String) : Bool :=
  contains_chars needle.toList hay.toList

/-- Python `s.startswith(pre)`. -/
def py_startswith (s pre : String) : Bool := starts_with_chars pre.toList s.toList

/-- Python `s.strip()`: removes leading and trailing whitespace. -/
def py_strip (s : String) : String :=
  String.mk (((s.toList.dropWhile Char.isWhitespace).reverse.dropWhile
    Char.isWhitespace).reverse)

/-- Python `s[n:]` (drop the first `n` characters). -/
def py_drop (s : String) (n : Nat) : String := String.mk (s.toList.drop n)

/-- Python truthiness of an optional string: `None` and `""` are falsy. -/
def truthy_opt_str : Option String → Bool
  | some s => s != ""
  | none => false

/-- Python truthiness of an optional integer: `None` and `0` are falsy. -/
def truthy_opt_nat : Option Nat → Bool
  | some n => n != 0
  | none => false

/-- JSON-like values appearing in tool results (`data` payloads). -/
inductive JVal where
  | s (v : String)
  | n (v : Nat)
  | b (v : Bool)
  | null
  | obj (fields : List (String × JVal))

/-- Tool parameters: a Python dict with string keys; the values relevant
to routing (`provider`) and to the traced snapshot are strings. -/
abbrev ToolParams := List (String × String)

/-- Dict lookup `params.get(k)`: first binding of the key, if any. -/
def lookup0 (params : ToolParams) (k : String) : Option String :=
  (params.find? (fun p => p.1 == k)).map (fun p => p.2)

/-- Renders tool params as the JSON object embedded in `would_execute`. -/
def params_jval (params : ToolParams) : JVal :=
  .obj (params.map (fun p => (p.1, .s p.2)))

/-! ## Internal tool registry (`InternalMCPHandler`) -/

/-- `[t["name"] for t in InternalMCPHandler.TASK_TOOLS]`. -/
def task_tool_names : List String :=
  ["create_task", "list_tasks", "complete_task", "update_task", "delete_task"]

/-- `[t["name"] for t in InternalMCPHandler.NOTE_TOOLS]`. -/
def note_tool_names : List String :=
  ["create_note", "list_notes", "update_note", "delete_note"]

/-- `[t["name"] for t in InternalMCPHandler.PERSON_TOOLS]`. -/
def person_tool_names : List String :=
  ["create_person", "list_persons"]

/-- `[t["name"] for t in InternalMCPHandler.INBOX_TOOLS]`. -/
def inbox_tool_names : List String :=
  ["list_inbox"]

/-- `InternalMCPHandler.get_tool_provider`: which internal provider
handles a tool, or `none` for tools that are not internal. -/
def get_tool_provider (tool_name : String) : Option String :=
  if tool_name ∈ task_tool_names then some "internal_tasks"
  else if tool_name ∈ note_tool_names then some "internal_notes"
  else if tool_name ∈ person_tool_names then some "internal_persons"
  else if tool_name ∈ inbox_tool_names then some "internal_inbox"
  else none

/-! ## Distributor data model (`mcp_distributor.py`) -/

/-- `InputSource` enum. -/
inductive InputSource where
  | command | chat | voice | api
deriving DecidableEq

/-- `InputSource.value`. -/
def InputSource.value : InputSource → String
  | .command => "command"
  | .chat => "chat"
  | .voice => "voice"
  | .api => "api"

/-- `MCPProvider` enum. -/
inductive MCPProvider where
  | google | microsoft | internal_tasks | internal_notes | internal_inbox | internal_persons
deriving DecidableEq

/-- `MCPProvider(value)` enum lookup: `some` on the six member values,
`none` where Python raises `ValueError`. -/
def MCPProvider.ofString (s : String) : Option MCPProvider :=
  if s = "google" then some .google
  else if s = "microsoft" then some .microsoft
  else if s = "internal_tasks" then some .internal_tasks
  else if s = "internal_notes" then some .internal_notes
  else if s = "internal_inbox" then some .internal_inbox
  else if s = "internal_persons" then some .internal_persons
  else none

/-- The `str` of the `ValueError` raised by a failed enum lookup
`MCPProvider(s)`. -/
def value_error_msg (s : String) : String :=
  squo ++ s ++ squo ++ " is not a valid MCPProvider"

/-- The message of the exception raised on a non-200 external response:
`f"MCP returned {status_code}: {text}"`. -/
def mcp_error_msg (status : Nat) (text : String) : String :=
  "MCP returned " ++ toString status ++ ": " ++ text

/-- `RouteTrace` dataclass. -/
structure RouteTrace where
  request_id : String
  timestamp : String
  input_source : String
  original_input : String
  detected_intent : String
  detected_provider : Option String
  selected_mcp : String
  tool_name : String
  tool_params : ToolParams
  test_mode : Nat
deriving DecidableEq

/-- `MCPExecutionResult` dataclass. -/
structure MCPExecutionResult where
  success : Bool
  data : Option JVal := none
  error : Option String := none
  route_trace : Option RouteTrace := none
  requires_confirmation : Bool := false

/-- The dict returned by `InternalMCPHandler.execute` or decoded from an
external MCP response body: `.success` is read with
`result.get("success", False)`, so it is optional here. -/
structure ExecDict where
  success : Option Bool := none
  data : Option JVal := none
  error : Option String := none

/-- Outcome of an awaited dispatch: a returned dict, or a raised
exception carrying `str(e)`. -/
inductive ExecOutcome where
  | ok (d : ExecDict)
  | exc (msg : String)

/-- An external HTTP response: status code, `response.text`, and the
decoded JSON body. -/
structure HttpResponse where
  status : Nat
  text : String
  body : ExecDict

/-- Number of dispatch invocations that actually reach the internal
handler (`handler.execute`) or the external client (the HTTP POST). -/
structure Calls where
  internal : Nat
  external : Nat
deriving DecidableEq

/-- The per-call environment: the generated request id and timestamp, the
behaviour of `InternalMCPHandler.execute` for the session in use, the
external servers' responses, and the ambient `get_test_mode()` context. -/
structure Env where
  request_id : String
  timestamp : String
  internal_exec : String → ToolParams → String → ExecDict
  external_response : MCPProvider → HttpResponse
  ctx_test_mode : Nat

/-- `MCPDistributor` instance state: `primary_provider` and the optional
database session (modelled by its presence; the session's behaviour
lives in `Env.internal_exec`). -/
structure Distributor where
  primary_provider : String
  db : Option Unit
deriving DecidableEq

/-- `MCPDistributor.__init__`: `self.primary_provider = primary_provider
or "microsoft"`. -/
def mkDistributor (primary_provider : Option String) (db : Option Unit) : Distributor :=
  { primary_provider :=
      match primary_provider with
      | some s => if s = "" then "microsoft" else s
      | none => "microsoft"
    db := db }

/-- The `if db is not None: self.db = db` update at the top of
`route_and_execute` / `confirm_and_execute`. -/
def with_db (dist : Distributor) (db : Option Unit) : Distributor :=
  { dist with db := match db with | some d => some d | none => dist.db }

/-- `MCPDistributor._determine_provider`: internal registry first, then
the explicit provider, then a truthy `tool_params["provider"]`, then the
configured primary provider. -/
def determine_provider (dist : Distributor) (tool_name : String)
    (explicit_provider : Option String) (tool_params : ToolParams) : String :=
  match get_tool_provider tool_name with
  | some internal_provider => internal_provider
  | none =>
    if truthy_opt_str explicit_provider then explicit_provider.getD ""
    else if truthy_opt_str (lookup0 tool_params "provider") then
      (lookup0 tool_params "provider").getD ""
    else dist.primary_provider

/-- `MCPDistributor._detect_intent`: fixed tool-name → intent map with an
`unknown:` fallback. -/
def detect_intent (tool_name : String) : String :=
  let intent_map : List (String × String) :=
    [("create_calendar_event", "calendar:create"),
     ("list_calendar_events", "calendar:list"),
     ("create_reminder", "calendar:reminder"),
     ("update_calendar_event", "calendar:update"),
     ("delete_calendar_event", "calendar:delete"),
     ("create_task", "task:create"),
     ("list_tasks", "task:list"),
     ("complete_task", "task:complete"),
     ("update_task", "task:update"),
     ("delete_task", "task:delete"),
     ("create_note", "note:create"),
     ("list_notes", "note:list"),
     ("update_note", "note:update"),
     ("delete_note", "note:delete"),
     ("create_person", "person:create"),
     ("list_persons", "person:list"),
     ("list_inbox", "inbox:list")]
  match (intent_map.find? (fun p => p.1 == tool_name)).map (fun p => p.2) with
  | some intent => intent
  | none => "unknown:" ++ tool_name

/-- The dispatch step shared by `route_and_execute` (mode 0) and
`confirm_and_execute`: `_execute_internal_tool` when the selected
provider name starts with `internal_` (raising when no session is
available, and only then constructing/invoking the lazy handler),
otherwise the `MCPProvider` enum lookup followed by
`_execute_external_mcp_tool` (one HTTP POST; non-200 raises). Returns
the outcome together with the number of calls that reached the internal
handler or the external client. -/
def dispatch_tool (dist : Distributor) (env : Env) (tool_name : String)
    (tool_params : ToolParams) (user_id : String) (selected : String) :
    ExecOutcome × Calls :=
  if py_startswith selected "internal_" then
    match dist.db with
    | none => (.exc "No database session available for internal tools", ⟨0, 0⟩)
    | some _ => (.ok (env.internal_exec tool_name tool_params user_id), ⟨1, 0⟩)
  else
    match MCPProvider.ofString selected with
    | none => (.exc (value_error_msg selected), ⟨0, 0⟩)
    | some p =>
      if (env.external_response p).status ≠ 200 then
        (.exc (mcp_error_msg (env.external_response p).status (env.external_response p).text),
         ⟨0, 1⟩)
      else (.ok (env.external_response p).body, ⟨0, 1⟩)

/-- `MCPDistributor.route_and_execute`. `test_mode = none` reads the
ambient context value; mode 1 and mode 2 return before any dispatch; the
dispatch branch catches exceptions and attaches the route trace only
when `test_mode >= 1`. -/
def route_and_execute (dist : Distributor) (env : Env) (tool_name : String)
    (tool_params : ToolParams) (user_id : String) (input_source : InputSource)
    (original_input : String) (provider : Option String) (test_mode : Option Nat)
    (db : Option Unit) : MCPExecutionResult × Calls :=
  let dist := with_db dist db
  let tm := test_mode.getD env.ctx_test_mode
  let selected := determine_provider dist tool_name provider tool_params
  let trace : RouteTrace :=
    { request_id := env.request_id
      timestamp := env.timestamp
      input_source := input_source.value
      original_input := original_input
      detected_intent := detect_intent tool_name
      detected_provider := provider
      selected_mcp := selected
      tool_name := tool_name
      tool_params := tool_params
      test_mode := tm }
  if tm = 1 then
    ({ success := true
       data := some (.obj
         [("status", .s "test_mode"),
          ("message", .s "Test mode: alleen logging, geen uitvoering"),
          ("would_execute", .obj
            [("tool", .s tool_name),
             ("provider", .s selected),
             ("params", params_jval tool_params)])])
       route_trace := some trace
       requires_confirmation := false }, ⟨0, 0⟩)
  else if tm = 2 then
    ({ success := true
       data := some (.obj
         [("status", .s "awaiting_confirmation"),
          ("message", .s "Wacht op bevestiging...")])
       route_trace := some trace
       requires_confirmation := true }, ⟨0, 0⟩)
  else
    match dispatch_tool dist env tool_name tool_params user_id selected with
    | (.ok d, calls) =>
      ({ success := d.success.getD false
         data := d.data
         error := d.error
         route_trace := if 1 ≤ tm then some trace else none }, calls)
    | (.exc m, calls) =>
      ({ success := false
         error := some m
         route_trace := if 1 ≤ tm then some trace else none }, calls)

/-- `MCPDistributor.confirm_and_execute`: the post-confirmation dispatch
for test mode 2 — no test-mode branching, and the result never carries a
route trace. -/
def confirm_and_execute (dist : Distributor) (env : Env) (tool_name : String)
    (tool_params : ToolParams) (user_id : String) (provider : Option String)
    (db : Option Unit) : MCPExecutionResult × Calls :=
  let dist := with_db dist db
  let selected := determine_provider dist tool_name provider tool_params
  match dispatch_tool dist env tool_name tool_params user_id selected with
  | (.ok d, calls) =>
    ({ success := d.success.getD false
       data := d.data
       error := d.error }, calls)
  | (.exc m, calls) =>
    ({ success := false
       error := some m }, calls)

/-- `InternalMCPHandler.execute`'s outer `try/except Exception`: a dict
is returned unchanged, a raised exception `e` becomes
`{"success": False, "error": str(e)}`. -/
def internal_execute_catch (body : ExecOutcome) : ExecDict :=
  match body with
  | .ok d => d
  | .exc m => { success := some false, error := some m }

/-! ## Intent detector (`intent_detector.py`)

"Now" in Europe/Amsterdam is modelled by its calendar date, counted in
days since 1970-01-01 (`datetime` arithmetic with whole-day `timedelta`s
only moves the date component). -/

/-- Proleptic Gregorian date (year, month, day) of a day count since
1970-01-01 (days-to-civil conversion by era decomposition). -/
def civil_from_days (z : Nat) : Nat × Nat × Nat :=
  let z := z + 719468
  let era := z / 146097
  let doe := z % 146097
  let yoe := (doe - doe / 1460 + doe / 36524 - doe / 146096) / 365
  let y := yoe + era * 400
  let doy := doe - (365 * yoe + yoe / 4 - yoe / 100)
  let mp := (5 * doy + 2) / 153
  let d := doy - (153 * mp + 2) / 5 + 1
  let m := if mp < 10 then mp + 3 else mp - 9
  if m ≤ 2 then (y + 1, m, d) else (y, m, d)

/-- `strftime("%Y-%m-%d")` of a day count since 1970-01-01. -/
def iso_date (z : Nat) : String :=
  match civil_from_days z with
  | (y, m, d) => pad4 y ++ "-" ++ pad2 m ++ "-" ++ pad2 d

/-- Python `datetime.weekday()` (Monday = 0) of a day count;
day 0 = 1970-01-01 was a Thursday. -/
def py_weekday (z : Nat) : Nat := (z + 3) % 7

/-- `IntentDetector.REMINDER_KEYWORDS`. -/
def reminder_keywords : List String :=
  ["herinner", "remind", "reminder", "herinnering", "onthoud",
   "vergeet niet", "don" ++ squo ++ "t forget", "alert"]

/-- `IntentDetector.CALENDAR_KEYWORDS`. -/
def calendar_keywords : List String :=
  ["afspraak", "meeting", "vergadering", "lunch", "diner", "ontbijt",
   "appointment", "event", "agenda", "calendar", "plannen", "inplannen",
   "schedule", "plan", "boek", "reserveer", "book"]

/-- `IntentDetector.PROVIDER_PATTERNS` (dict insertion order). -/
def provider_patterns : List (String × List String) :=
  [("google", ["google", "gcal", "google calendar", "google agenda"]),
   ("microsoft", ["microsoft", "outlook", "o365", "office 365", "office", "office agenda"])]

/-- `IntentDetector.DAYS_NL` (dict insertion order). -/
def days_nl : List (String × Nat) :=
  [("maandag", 0), ("dinsdag", 1), ("woensdag", 2), ("donderdag", 3),
   ("vrijdag", 4), ("zaterdag", 5), ("zondag", 6)]

/-- The words that turn a calendar chat intent into a "list" intent. -/
def list_words : List String := ["wat", "welke", "toon", "show", "list", "bekijk"]

/-- `IntentDetector.COMMAND_PATTERNS` (dict insertion order); the intent
is recorded by its enum value string. -/
def command_patterns : List (String × String) :=
  [("#calendar", "calendar:create"), ("#afspraak", "calendar:create"),
   ("#agenda", "calendar:list"), ("#reminder", "calendar:reminder"),
   ("#herinner", "calendar:reminder"), ("#task", "task:create"),
   ("#taak", "task:create"), ("#note", "note:create"), ("#notitie", "note:create")]

/-- `IntentDetector._detect_provider`: first provider one of whose
patterns occurs in the lowercased text. -/
def detect_provider (text : String) : Option String :=
  let tl := ascii_lower text
  (provider_patterns.find? (fun pp => pp.2.any (fun pat => contains_sub pat tl))).map
    (fun pp => pp.1)

/-- The `extracted_params` dict built by `_extract_basic_params`
(`{}` = all fields absent). -/
structure BasicParams where
  date_hint : Option String := none
  date_type : Option String := none
  time_hint : Option String := none
deriving DecidableEq

def is_digit (c : Char) : Bool := '0' ≤ c && c ≤ '9'

def digit_val (c : Char) : Nat := c.toNat - '0'.toNat

/-- Regex `(\d{1,2})[:.](\d{2})` matched at the head of the text (greedy
one-or-two digit group with backtracking); yields the numeric hour group
and the two-character minute group. -/
def match_time1_at : List Char → Option (Nat × String)
  | c1 :: c2 :: c3 :: c4 :: c5 :: _ =>
    if is_digit c1 && is_digit c2 && (c3 = ':' || c3 = '.') && is_digit c4 && is_digit c5 then
      some (digit_val c1 * 10 + digit_val c2, String.mk [c4, c5])
    else if is_digit c1 && (c2 = ':' || c2 = '.') && is_digit c3 && is_digit c4 then
      some (digit_val c1, String.mk [c3, c4])
    else none
  | [c1, c2, c3, c4] =>
    if is_digit c1 && (c2 = ':' || c2 = '.') && is_digit c3 && is_digit c4 then
      some (digit_val c1, String.mk [c3, c4])
    else none
  | _ => none

/-- `re.search` for the first pattern: leftmost match wins. -/
def search_time1 : List Char → Option (Nat × String)
  | [] => none
  | c :: rest =>
    match match_time1_at (c :: rest) with
    | some r => some r
    | none => search_time1 rest

/-- Drops leading whitespace (the `\s*` of the second time pattern). -/
def skip_spaces : List Char → List Char
  | c :: rest => if c.isWhitespace then skip_spaces rest else c :: rest
  | [] => []

/-- Regex `(\d{1,2})\s*(?:u|uur)` matched at the head of the text: the
alternation `u|uur` always succeeds on a leading `u`, so the pattern is
digits, optional whitespace, then `u`. -/
def match_time2_at : List Char → Option Nat
  | c1 :: c2 :: rest =>
    if is_digit c1 && is_digit c2 then
      match skip_spaces rest with
      | 'u' :: _ => some (digit_val c1 * 10 + digit_val c2)
      | _ =>
        match skip_spaces (c2 :: rest) with
        | 'u' :: _ => some (digit_val c1)
        | _ => none
    else if is_digit c1 then
      match skip_spaces (c2 :: rest) with
      | 'u' :: _ => some (digit_val c1)
      | _ => none
    else none
  | _ => none

/-- `re.search` for the second pattern: leftmost match wins. -/
def search_time2 : List Char → Option Nat
  | [] => none
  | c :: rest =>
    match match_time2_at (c :: rest) with
    | some r => some r
    | none => search_time2 rest

/-- The time-extraction loop of `_extract_basic_params`: the first
pattern over the whole text, then the second; the hour group is rendered
with `f"{int(g):02d}"`. -/
def extract_time_hint (tl : List Char) : Option String :=
  match search_time1 tl with
  | some (h, mm) => some (pad2 h ++ ":" ++ mm)
  | none =>
    match search_time2 tl with
    | some h => some (pad2 h ++ ":00")
    | none => none

/-- `IntentDetector._extract_basic_params` over the date `today` (days
since 1970-01-01, Europe/Amsterdam calendar): the `morgen` /
`overmorgen` / `vandaag` / weekday cascade, then the time patterns. -/
def extract_basic_params (today : Nat) (text : String) : BasicParams :=
  let tl := ascii_lower text
  let date_params : BasicParams :=
    if contains_sub "morgen" tl then
      { date_hint := some (iso_date (today + 1)), date_type := some "morgen" }
    else if contains_sub "overmorgen" tl then
      { date_hint := some (iso_date (today + 2)), date_type := some "overmorgen" }
    else if contains_sub "vandaag" tl then
      { date_hint := some (iso_date today), date_type := some "vandaag" }
    else
      match days_nl.find? (fun p => contains_sub p.1 tl) with
      | some (day_name, day_num) =>
        let days_ahead : Int := (day_num : Int) - (py_weekday today : Int)
        let days_ahead := if days_ahead ≤ 0 then days_ahead + 7 else days_ahead
        { date_hint := some (iso_date (today + days_ahead.toNat)),
          date_type := some day_name }
      | none => {}
  { date_params with time_hint := extract_time_hint tl.toList }

/-- `DetectedIntent` dataclass; the intent is recorded by its enum value
string, the confidence by its exact decimal value. -/
structure DetectedIntent where
  intent_type : String
  confidence : ℚ
  source : String
  provider : Option String
  raw_input : String
  extracted_params : BasicParams
  needs_claude_extraction : Bool
deriving DecidableEq

/-- `IntentDetector._detect_command_intent`. -/
def detect_command_intent (today : Nat) (user_input : String) : DetectedIntent :=
  let input_lower := py_strip (ascii_lower user_input)
  match command_patterns.find? (fun cp => py_startswith input_lower cp.1) with
  | none =>
    { intent_type := "unknown", confidence := 0, source := "command", provider := none,
      raw_input := user_input, extracted_params := {}, needs_claude_extraction := false }
  | some (command_found, itype) =>
    let rest := py_strip (py_drop user_input command_found.length)
    { intent_type := itype, confidence := 1, source := "command",
      provider := detect_provider rest, raw_input := user_input,
      extracted_params := extract_basic_params today rest,
      needs_claude_extraction := true }

/-- `IntentDetector._detect_chat_intent`: reminder keywords first, then
calendar keywords (split into list/create), else unknown; the chat path
always returns an empty `extracted_params` dict. -/
def detect_chat_intent (user_input : String) : DetectedIntent :=
  let input_lower := ascii_lower user_input
  let provider := detect_provider user_input
  if reminder_keywords.any (fun kw => contains_sub kw input_lower) then
    { intent_type := "calendar:reminder", confidence := 0.8, source := "chat",
      provider := provider, raw_input := user_input, extracted_params := {},
      needs_claude_extraction := true }
  else if calendar_keywords.any (fun kw => contains_sub kw input_lower) then
    let itype :=
      if list_words.any (fun w => contains_sub w input_lower) then "calendar:list"
      else "calendar:create"
    { intent_type := itype, confidence := 0.7, source := "chat",
      provider := provider, raw_input := user_input, extracted_params := {},
      needs_claude_extraction := true }
  else
    { intent_type := "unknown", confidence := 0, source := "chat",
      provider := provider, raw_input := user_input, extracted_params := {},
      needs_claude_extraction := false }

/-- `IntentDetector.detect`: `#`-prefixed input goes to the command
path, everything else to the chat path. -/
def detect (today : Nat) (user_input : String) : DetectedIntent :=
  let input_lower := py_strip (ascii_lower user_input)
  if py_startswith input_lower "#" then detect_command_intent today user_input
  else detect_chat_intent user_input

/-! ## Internal task handler (`InternalMCPHandler._complete_task`)

The handler code is in `internal_mcp_handler.py`; the `TaskUseCases`
layer it calls is not part of the sources, so it is modelled from the
spec as a per-user task store. Task ids are modelled as strings (the
handler's `UUID(task_id)` re-parse of an id held by the store is elided;
a malformed-id exception is covered by `internal_execute_catch`). -/

/-- Modelled from the spec: a stored task row — durable identifier,
human-facing `task_number`, title, status, owner, completion
annotation (`TaskUseCases` is not among the sources). -/
structure TaskRec where
  id : String
  task_number : Nat
  title : String
  status : String
  user_id : String
  ann : Option String := none
deriving DecidableEq

/-- Modelled from the spec: the task table backing `TaskUseCases`. -/
abbrev TaskStore := List TaskRec

/-- Modelled from the spec: `TaskUseCases.get_task_by_number` — resolves
a user's human-facing task number to the task, `none` when absent. -/
def get_task_by_number (store : TaskStore) (task_number : Nat) (user_id : String) :
    Option TaskRec :=
  store.find? (fun t => t.task_number == task_number && t.user_id == user_id)

/-- Modelled from the spec: `TaskUseCases.update_task_status` — sets the
status (and completion annotation) of the user's task with the given id,
returning the updated task, or `none` when no matching entity exists. -/
def update_task_status (store : TaskStore) (task_id : String) (user_id : String)
    (new_status : String) (ann : Option String) : Option TaskRec × TaskStore :=
  match store.find? (fun t => t.id == task_id && t.user_id == user_id) with
  | none => (none, store)
  | some t =>
    let updated := { t with status := new_status, ann := ann }
    (some updated,
     store.map (fun u => if u.id == task_id && u.user_id == user_id then updated else u))

/-- The params dict of a `complete_task` call (`params.get("task_id")`,
`params.get("task_number")`, `params.get("annotation")`). -/
structure CompleteTaskParams where
  task_id : Option String := none
  task_number : Option Nat := none
  ann : Option String := none
deriving DecidableEq

/-- The tail of `_complete_task` after the number fallback: the
`if not task_id` required-parameter check, then
`update_task_status(..., "done", annotation)` and result shaping. -/
def complete_task_go (store : TaskStore) (task_id : Option String)
    (ann : Option String) (user_id : String) : ExecDict × TaskStore :=
  if !truthy_opt_str task_id then
    ({ success := some false, error := some "task_id of task_number is vereist" }, store)
  else
    match update_task_status store (task_id.getD "") user_id "done" ann with
    | (none, store2) =>
      ({ success := some false, error := some "Taak niet gevonden" }, store2)
    | (some t, store2) =>
      ({ success := some true
         data := some (.obj
           [("task_id", .s t.id), ("title", .s t.title), ("status", .s "done"),
            ("message", .s ("Taak " ++ squo ++ t.title ++ squo ++ " voltooid"))]) },
       store2)

/-- `InternalMCPHandler._complete_task`: when a truthy `task_number` is
given without a truthy `task_id`, the number is first resolved through
`get_task_by_number` (a failed resolution is a descriptive not-found
error), then the call proceeds on the resolved id. -/
def complete_task (store : TaskStore) (params : CompleteTaskParams)
    (user_id : String) : ExecDict × TaskStore :=
  if truthy_opt_nat params.task_number && !truthy_opt_str params.task_id then
    match get_task_by_number store (params.task_number.getD 0) user_id with
    | none =>
      ({ success := some false
         error := some ("Taak #" ++ toString (params.task_number.getD 0) ++ " niet gevonden") },
       store)
    | some t => complete_task_go store (some t.id) params.ann user_id
  else
    complete_task_go store params.task_id params.ann user_id

/-! ## Shared lemmas -/

/-- Every provider the internal registry returns is named `internal_...`,
so the distributor's `is_internal` test recognises it. -/
theorem get_tool_provider_starts_internal (tool p : String)
    (h : get_tool_provider tool = some p) : py_startswith p "internal_" = true := by
  unfold get_tool_provider at h
  repeat' split at h
  all_goals first
    | (injection h with h2; subst h2; decide)
    | simp at h

/-- The `ValueError` message of a failed provider-enum lookup is never
empty. -/
theorem value_error_msg_ne_empty (s : String) : value_error_msg s ≠ "" := by
  intro h
  have hlen := congrArg String.length h
  rw [value_error_msg] at hlen
  simp only [String.length_append] at hlen
  have h1 : 1 ≤ (" is not a valid MCPProvider").length := by decide
  have h2 : ("" : String).length = 0 := rfl
  omega

/-- The non-200 exception message is never empty. -/
theorem mcp_error_msg_ne_empty (status : Nat) (text : String) :
    mcp_error_msg status text ≠ "" := by
  intro h
  have hlen := congrArg String.length h
  rw [mcp_error_msg] at hlen
  simp only [String.length_append] at hlen
  have h1 : 1 ≤ ("MCP returned " : String).length := by decide
  have h2 : ("" : String).length = 0 := rfl
  omega

/-- Every exception the dispatch step itself raises carries a non-empty
message. -/
theorem dispatch_tool_exc_ne_empty (dist : Distributor) (env : Env) (tool_name : String)
    (tool_params : ToolParams) (user_id : String) (selected : String) (m : String)
    (calls : Calls)
    (h : dispatch_tool dist env tool_name tool_params user_id selected = (.exc m, calls)) :
    m ≠ "" := by
  unfold dispatch_tool at h
  split at h
  · cases hb : dist.db <;> simp only [hb] at h
    · simp only [Prod.mk.injEq, ExecOutcome.exc.injEq] at h
      obtain ⟨h1, -⟩ := h
      exact h1 ▸ (by decide : ("No database session available for internal tools" : String) ≠ "")
    · simp at h
  · cases ho : MCPProvider.ofString selected <;> simp only [ho] at h
    · simp only [Prod.mk.injEq, ExecOutcome.exc.injEq] at h
      obtain ⟨h1, -⟩ := h
      exact h1 ▸ value_error_msg_ne_empty selected
    · split at h
      · simp only [Prod.mk.injEq, ExecOutcome.exc.injEq] at h
        obtain ⟨h1, -⟩ := h
        exact h1 ▸ mcp_error_msg_ne_empty _ _
      · simp at h

/-! ## Claims -/

/-- C1: for every tool the internal registry maps to an internal
provider, `_determine_provider` (used verbatim by `route_and_execute`
and `confirm_and_execute`) selects that internal provider, for all
values of the explicit provider argument and of
`tool_params["provider"]`. -/
theorem internal_tools_never_redirected (dist : Distributor) (tool_name : String)
    (explicit_provider : Option String) (tool_params : ToolParams) (p : String)
    (h : get_tool_provider tool_name = some p) :
    determine_provider dist tool_name explicit_provider tool_params = p := by
  unfold determine_provider
  rw [h]

/-- Witness for C1: `complete_task` is registered to `internal_tasks`
and wins over an explicit `google` and a `tool_params` `microsoft`. -/
theorem internal_tools_never_redirected_witness :
    get_tool_provider "complete_task" = some "internal_tasks" ∧
    determine_provider (mkDistributor (some "google") none) "complete_task"
      (some "google") [("provider", "microsoft")] = "internal_tasks" :=
  ⟨rfl, internal_tools_never_redirected _ _ _ _ _ rfl⟩

/-- C2: for a tool absent from the internal registry the selected
provider is the explicit provider when given and non-empty, else a
non-empty `tool_params["provider"]`, else the configured primary
provider, which `__init__` defaults to `"microsoft"`. -/
theorem external_provider_override_order (dist : Distributor) (tool_name : String)
    (explicit_provider : Option String) (tool_params : ToolParams)
    (h : get_tool_provider tool_name = none) :
    (∀ s, explicit_provider = some s → s ≠ "" →
      determine_provider dist tool_name explicit_provider tool_params = s) ∧
    (truthy_opt_str explicit_provider = false →
      ∀ v, lookup0 tool_params "provider" = some v → v ≠ "" →
        determine_provider dist tool_name explicit_provider tool_params = v) ∧
    (truthy_opt_str explicit_provider = false →
      truthy_opt_str (lookup0 tool_params "provider") = false →
        determine_provider dist tool_name explicit_provider tool_params
          = dist.primary_provider) ∧
    (∀ db, (mkDistributor none db).primary_provider = "microsoft") := by
  unfold determine_provider
  rw [h]
  refine ⟨?_, ?_, ?_, fun db => rfl⟩
  · rintro s rfl hs
    simp [truthy_opt_str, hs]
  · intro hexp v hv hvne
    rw [hexp, hv]
    simp [truthy_opt_str, hvne, hv]
  · intro hexp hpar
    rw [hexp, hpar]
    simp

/-- Witness for C2: the three resolution levels on the external tool
`create_calendar_event`, plus the `"microsoft"` construction default. -/
theorem external_provider_override_order_witness :
    determine_provider (mkDistributor (some "microsoft") none) "create_calendar_event"
      (some "google") [("provider", "microsoft")] = "google" ∧
    determine_provider (mkDistributor (some "microsoft") none) "create_calendar_event"
      none [("provider", "google")] = "google" ∧
    determine_provider (mkDistributor none none) "create_calendar_event" none [] = "microsoft" :=
  ⟨(external_provider_override_order (mkDistributor (some "microsoft") none)
      "create_calendar_event" (some "google") [("provider", "microsoft")] rfl).1
      "google" rfl (by decide),
   (external_provider_override_order (mkDistributor (some "microsoft") none)
      "create_calendar_event" none [("provider", "google")] rfl).2.1
      rfl "google" rfl (by decide),
   ((external_provider_override_order (mkDistributor none none)
      "create_calendar_event" none [] rfl).2.2.1 rfl rfl).trans
     ((external_provider_override_order (mkDistributor none none) "create_calendar_event"
        none [] rfl).2.2.2 none)⟩

/-- C3: with `test_mode=1`, `route_and_execute` returns `success=true`,
`requires_confirmation=false`, the route trace attached, and a
`would_execute` payload with the resolved tool/provider/params, while
neither the internal handler nor the external client is invoked (both
dispatch counters are zero). -/
theorem test_mode_one_logs_only (dist : Distributor) (env : Env) (tool_name : String)
    (tool_params : ToolParams) (user_id : String) (input_source : InputSource)
    (original_input : String) (provider : Option String) (db : Option Unit) :
    route_and_execute dist env tool_name tool_params user_id input_source
        original_input provider (some 1) db =
      ({ success := true
         data := some (.obj
           [("status", .s "test_mode"),
            ("message", .s "Test mode: alleen logging, geen uitvoering"),
            ("would_execute", .obj
              [("tool", .s tool_name),
               ("provider", .s (determine_provider (with_db dist db) tool_name
                  provider tool_params)),
               ("params", params_jval tool_params)])])
         route_trace := some
           { request_id := env.request_id
             timestamp := env.timestamp
             input_source := input_source.value
             original_input := original_input
             detected_intent := detect_intent tool_name
             detected_provider := provider
             selected_mcp := determine_provider (with_db dist db) tool_name
               provider tool_params
             tool_name := tool_name
             tool_params := tool_params
             test_mode := 1 }
         requires_confirmation := false }, ⟨0, 0⟩) := rfl

/-- Helper: when the session needed by an internal tool is present and
an external provider name resolves in the enum, the dispatch step
reaches exactly one backend. -/
theorem dispatch_tool_calls_one (dist : Distributor) (env : Env) (tool_name : String)
    (tool_params : ToolParams) (user_id : String) (selected : String)
    (h1 : py_startswith selected "internal_" = true → dist.db ≠ none)
    (h2 : py_startswith selected "internal_" = false →
      (MCPProvider.ofString selected).isSome = true) :
    (dispatch_tool dist env tool_name tool_params user_id selected).2.internal
      + (dispatch_tool dist env tool_name tool_params user_id selected).2.external = 1 := by
  unfold dispatch_tool
  cases hs : py_startswith selected "internal_"
  · have hsome := h2 hs
    cases ho : MCPProvider.ofString selected
    · rw [ho] at hsome
      simp at hsome
    · simp only [Bool.false_eq_true, if_false, ho]
      split <;> rfl
  · have hdb := h1 hs
    cases hb : dist.db
    · exact absurd hb hdb
    · simp [hb]

/-- Helper: `confirm_and_execute` never attaches a route trace. -/
theorem confirm_and_execute_trace_free (dist : Distributor) (env : Env)
    (tool_name : String) (tool_params : ToolParams) (user_id : String)
    (provider : Option String) (db : Option Unit) :
    (confirm_and_execute dist env tool_name tool_params user_id provider db).1.route_trace
      = none := by
  show (match dispatch_tool (with_db dist db) env tool_name tool_params user_id
      (determine_provider (with_db dist db) tool_name provider tool_params) with
    | (ExecOutcome.ok d, calls) =>
      (({ success := d.success.getD false, data := d.data, error := d.error }
          : MCPExecutionResult), calls)
    | (ExecOutcome.exc m, calls) =>
      (({ success := false, error := some m } : MCPExecutionResult), calls)).1.route_trace = none
  rcases dispatch_tool (with_db dist db) env tool_name tool_params user_id
      (determine_provider (with_db dist db) tool_name provider tool_params)
    with ⟨o | m, calls⟩ <;> rfl

/-- C4: with `test_mode=2`, `route_and_execute` returns `success=true`
with data status `awaiting_confirmation`, `requires_confirmation=true`
and the trace attached, and dispatches nothing; a subsequent
`confirm_and_execute` with the same tool/params/provider (given that
the resolved backend is reachable: a session for an internal tool, a
valid enum name for an external one) performs the dispatch exactly once
and its result carries no route trace. -/
theorem test_mode_two_confirm_flow (dist : Distributor) (env : Env) (tool_name : String)
    (tool_params : ToolParams) (user_id : String) (input_source : InputSource)
    (original_input : String) (provider : Option String) (db : Option Unit)
    (h1 : py_startswith (determine_provider (with_db dist db) tool_name provider
        tool_params) "internal_" = true → (with_db dist db).db ≠ none)
    (h2 : py_startswith (determine_provider (with_db dist db) tool_name provider
        tool_params) "internal_" = false →
      (MCPProvider.ofString (determine_provider (with_db dist db) tool_name provider
        tool_params)).isSome = true) :
    route_and_execute dist env tool_name tool_params user_id input_source
        original_input provider (some 2) db =
      ({ success := true
         data := some (.obj
           [("status", .s "awaiting_confirmation"),
            ("message", .s "Wacht op bevestiging...")])
         route_trace := some
           { request_id := env.request_id
             timestamp := env.timestamp
             input_source := input_source.value
             original_input := original_input
             detected_intent := detect_intent tool_name
             detected_provider := provider
             selected_mcp := determine_provider (with_db dist db) tool_name
               provider tool_params
             tool_name := tool_name
             tool_params := tool_params
             test_mode := 2 }
         requires_confirmation := true }, ⟨0, 0⟩) ∧
    (confirm_and_execute dist env tool_name tool_params user_id provider db).1.route_trace
      = none ∧
    (confirm_and_execute dist env tool_name tool_params user_id provider db).2.internal
      + (confirm_and_execute dist env tool_name tool_params user_id provider db).2.external
      = 1 := by
  refine ⟨rfl, confirm_and_execute_trace_free dist env tool_name tool_params user_id
    provider db, ?_⟩
  have hcalls :
      (confirm_and_execute dist env tool_name tool_params user_id provider db).2
        = (dispatch_tool (with_db dist db) env tool_name tool_params user_id
            (determine_provider (with_db dist db) tool_name provider tool_params)).2 := by
    show (match dispatch_tool (with_db dist db) env tool_name tool_params user_id
        (determine_provider (with_db dist db) tool_name provider tool_params) with
      | (ExecOutcome.ok d, calls) =>
        (({ success := d.success.getD false, data := d.data, error := d.error }
            : MCPExecutionResult), calls)
      | (ExecOutcome.exc m, calls) =>
        (({ success := false, error := some m } : MCPExecutionResult), calls)).2 = _
    rcases dispatch_tool (with_db dist db) env tool_name tool_params user_id
        (determine_provider (with_db dist db) tool_name provider tool_params)
      with ⟨o | m, calls⟩ <;> rfl
  rw [hcalls]
  exact dispatch_tool_calls_one (with_db dist db) env tool_name tool_params user_id
    (determine_provider (with_db dist db) tool_name provider tool_params) h1 h2

/-- A concrete environment for witnesses: a session-backed handler that
reports success, and external servers that answer 200. -/
def env0 : Env :=
  { request_id := "r1"
    timestamp := "2025-01-01T00:00:00"
    internal_exec := fun _ _ _ => { success := some true }
    external_response := fun _ => { status := 200, text := "", body := { success := some true } }
    ctx_test_mode := 0 }

/-- Witness for C4: a mode-2 call on the internal tool `complete_task`
with a session defers with `requires_confirmation`, and the follow-up
`confirm_and_execute` dispatches exactly once. -/
theorem test_mode_two_confirm_flow_witness :
    (route_and_execute (mkDistributor none (some ())) env0 "complete_task" [] "u1"
        .chat "" none (some 2) none).1.requires_confirmation = true ∧
    (confirm_and_execute (mkDistributor none (some ())) env0 "complete_task" [] "u1"
        none none).1.route_trace = none ∧
    (confirm_and_execute (mkDistributor none (some ())) env0 "complete_task" [] "u1"
        none none).2.internal
      + (confirm_and_execute (mkDistributor none (some ())) env0 "complete_task" [] "u1"
        none none).2.external = 1 := by
  have h := test_mode_two_confirm_flow (mkDistributor none (some ())) env0 "complete_task"
    [] "u1" .chat "" none none (by decide) (by decide)
  exact ⟨by rw [h.1], h.2.1, h.2.2⟩

/-- C6: the result of `route_and_execute` carries a route trace exactly
when `test_mode ≥ 1`; in particular a mode-0 call returns no trace on
the success path and on the failure path alike. -/
theorem route_trace_iff_test_mode (dist : Distributor) (env : Env) (tool_name : String)
    (tool_params : ToolParams) (user_id : String) (input_source : InputSource)
    (original_input : String) (provider : Option String) (db : Option Unit) (tm : Nat) :
    (route_and_execute dist env tool_name tool_params user_id input_source
        original_input provider (some tm) db).1.route_trace ≠ none ↔ 1 ≤ tm := by
  unfold route_and_execute
  by_cases h1 : tm = 1
  · subst h1
    simp
  · by_cases h2 : tm = 2
    · subst h2
      simp
    · simp only [Option.getD_some, if_neg h1, if_neg h2]
      rcases dispatch_tool (with_db dist db) env tool_name tool_params user_id
          (determine_provider (with_db dist db) tool_name provider tool_params)
        with ⟨o | m, calls⟩
      · by_cases h3 : 1 ≤ tm <;> simp [h3]
      · by_cases h3 : 1 ≤ tm <;> simp [h3]

/-- C5 (amended): neither `route_and_execute` (mode 0) nor
`confirm_and_execute` lets a dispatch failure escape: an exception
outcome is returned as `success=false` with `error` equal to the
exception message — and every message raised by the distributor itself
(no session, unresolvable provider enum, external non-200) is
non-empty — while a returned dict (including one produced by the
internal handler catching a downstream use-case exception) is passed
through verbatim, its `error` field unaltered. -/
theorem failures_converge_to_error_results (dist : Distributor) (env : Env)
    (tool_name : String) (tool_params : ToolParams) (user_id : String)
    (input_source : InputSource) (original_input : String) (provider : Option String)
    (db : Option Unit) :
    (∀ m calls,
      dispatch_tool (with_db dist db) env tool_name tool_params user_id
          (determine_provider (with_db dist db) tool_name provider tool_params)
        = (.exc m, calls) →
      m ≠ "" ∧
      (route_and_execute dist env tool_name tool_params user_id input_source
          original_input provider (some 0) db).1
        = { success := false, error := some m } ∧
      (confirm_and_execute dist env tool_name tool_params user_id provider db).1
        = { success := false, error := some m }) ∧
    (∀ d calls,
      dispatch_tool (with_db dist db) env tool_name tool_params user_id
          (determine_provider (with_db dist db) tool_name provider tool_params)
        = (.ok d, calls) →
      (route_and_execute dist env tool_name tool_params user_id input_source
          original_input provider (some 0) db).1
        = { success := d.success.getD false, data := d.data, error := d.error } ∧
      (confirm_and_execute dist env tool_name tool_params user_id provider db).1
        = { success := d.success.getD false, data := d.data, error := d.error }) := by
  constructor
  · intro m calls hd
    refine ⟨dispatch_tool_exc_ne_empty _ _ _ _ _ _ _ _ hd, ?_, ?_⟩
    · simp [route_and_execute, hd]
    · simp [confirm_and_execute, hd]
  · intro d calls hd
    constructor
    · simp [route_and_execute, hd]
    · simp [confirm_and_execute, hd]

/-- Counterexample for C5 as frozen: when the internal handler catches a
downstream use-case exception whose message is empty (`str(e) == ""`),
the distributor returns `success=false` with an *empty* error string,
not a non-empty one. -/
theorem empty_downstream_error_passes_through :
    (route_and_execute (mkDistributor none (some ()))
        { request_id := "r1"
          timestamp := "2025-01-01T00:00:00"
          internal_exec := fun _ _ _ => internal_execute_catch (.exc "")
          external_response := fun _ => { status := 200, text := "", body := {} }
          ctx_test_mode := 0 }
        "complete_task" [] "u1" .chat "" none (some 0) none).1
      = { success := false, error := some "" } := rfl

/-- Witness for C5 (amended): an unresolvable provider enum name
(`"bogus"`) is caught and surfaces as a non-empty error result. -/
theorem failures_converge_to_error_results_witness :
    value_error_msg "bogus" ≠ "" ∧
    (route_and_execute (mkDistributor (some "bogus") none) env0 "create_calendar_event"
        [] "u1" .chat "" none (some 0) none).1
      = { success := false, error := some (value_error_msg "bogus") } ∧
    (confirm_and_execute (mkDistributor (some "bogus") none) env0 "create_calendar_event"
        [] "u1" none none).1
      = { success := false, error := some (value_error_msg "bogus") } :=
  (failures_converge_to_error_results (mkDistributor (some "bogus") none) env0
    "create_calendar_event" [] "u1" .chat "" none none).1
    (value_error_msg "bogus") ⟨0, 0⟩ rfl

/-- C10: with no database session anywhere (none at construction, none
passed to the call), a mode-0 call on an internal tool does not raise
and does not construct the lazy handler: it returns `success=false`
with the "No database session available for internal tools" error and
zero dispatches, while mode 1 and mode 2 still succeed. -/
theorem internal_tool_without_session (primary : Option String) (env : Env)
    (tool_name : String) (tool_params : ToolParams) (user_id : String)
    (input_source : InputSource) (original_input : String) (provider : Option String)
    (p : String) (hp : get_tool_provider tool_name = some p) :
    route_and_execute (mkDistributor primary none) env tool_name tool_params user_id
        input_source original_input provider (some 0) none
      = ({ success := false
           error := some "No database session available for internal tools" }, ⟨0, 0⟩) ∧
    (route_and_execute (mkDistributor primary none) env tool_name tool_params user_id
        input_source original_input provider (some 1) none).1.success = true ∧
    (route_and_execute (mkDistributor primary none) env tool_name tool_params user_id
        input_source original_input provider (some 2) none).1.success = true := by
  have hsel : determine_provider (with_db (mkDistributor primary none) none) tool_name
      provider tool_params = p := by
    unfold determine_provider
    rw [hp]
  have hint := get_tool_provider_starts_internal tool_name p hp
  refine ⟨?_, rfl, rfl⟩
  have hdb : (with_db (mkDistributor primary none) none).db = none := rfl
  simp [route_and_execute, dispatch_tool, hsel, hint, hdb]

/-- Witness for C10: the internal tool `create_task` without any
session. -/
theorem internal_tool_without_session_witness :
    route_and_execute (mkDistributor none none) env0 "create_task" [] "u1"
        .chat "" none (some 0) none
      = ({ success := false
           error := some "No database session available for internal tools" }, ⟨0, 0⟩) ∧
    (route_and_execute (mkDistributor none none) env0 "create_task" [] "u1"
        .chat "" none (some 1) none).1.success = true ∧
    (route_and_execute (mkDistributor none none) env0 "create_task" [] "u1"
        .chat "" none (some 2) none).1.success = true :=
  internal_tool_without_session none env0 "create_task" [] "u1" .chat "" none
    "internal_tasks" rfl

/-- Counterexample for C7 as frozen: on the natural-language chat path,
`detect("ik wil morgen om 14:00 een afspraak")` does classify the
message as calendar-create, but its `extracted_params` dict is empty —
it contains neither a `date_hint` nor a `time_hint` (here evaluated at
the date 2024-10-04, day 20000 of the epoch; the chat path never calls
`_extract_basic_params`, so the date is irrelevant). -/
theorem chat_path_extracts_no_params :
    (detect 20000 "ik wil morgen om 14:00 een afspraak").intent_type = "calendar:create" ∧
    (detect 20000 "ik wil morgen om 14:00 een afspraak").extracted_params.date_hint = none ∧
    (detect 20000 "ik wil morgen om 14:00 een afspraak").extracted_params.time_hint = none :=
  ⟨rfl, rfl, rfl⟩

/-- C7 (amended): `detect("ik wil morgen om 14:00 een afspraak")`
returns a calendar-create intent with `needs_claude_extraction` but an
*empty* `extracted_params`: the coarse date/time extraction described
for the detector runs only on the `#`-command path. On the same text
`_extract_basic_params` itself — and hence a command-path call such as
`detect("#afspraak morgen om 14:00")` — does yield `date_hint` equal to
tomorrow's ISO date and `time_hint = "14:00"`. -/
theorem chat_intent_and_command_extraction (today : Nat) :
    (detect today "ik wil morgen om 14:00 een afspraak").intent_type = "calendar:create" ∧
    (detect today "ik wil morgen om 14:00 een afspraak").needs_claude_extraction = true ∧
    (detect today "ik wil morgen om 14:00 een afspraak").extracted_params = {} ∧
    extract_basic_params today "ik wil morgen om 14:00 een afspraak"
      = { date_hint := some (iso_date (today + 1)), date_type := some "morgen",
          time_hint := some "14:00" } ∧
    (detect today "#afspraak morgen om 14:00").extracted_params
      = { date_hint := some (iso_date (today + 1)), date_type := some "morgen",
          time_hint := some "14:00" } :=
  ⟨rfl, rfl, rfl, rfl, rfl⟩

/-- C8: completing a task through the internal handler by its (nonzero)
`task_number` alone resolves and completes exactly the task the
corresponding `task_id` call completes; an unresolvable number yields
the descriptive not-found error rather than an exception; and with
neither identifier the result is the `vereist` (required) error. -/
theorem complete_task_number_fallback (store : TaskStore) (user_id : String) (n : Nat)
    (t : TaskRec) (ann : Option String) (hn : n ≠ 0)
    (hfind : get_task_by_number store n user_id = some t) :
    complete_task store { task_number := some n, ann := ann } user_id
      = complete_task store { task_id := some t.id, ann := ann } user_id ∧
    (∀ (store2 : TaskStore) (n2 : Nat), n2 ≠ 0 →
      get_task_by_number store2 n2 user_id = none →
      complete_task store2 { task_number := some n2 } user_id
        = ({ success := some false
             error := some ("Taak #" ++ toString n2 ++ " niet gevonden") }, store2)) ∧
    (∀ store3 : TaskStore, complete_task store3 {} user_id
        = ({ success := some false
             error := some "task_id of task_number is vereist" }, store3)) := by
  refine ⟨?_, ?_, ?_⟩
  · unfold complete_task
    simp [truthy_opt_nat, truthy_opt_str, hn, hfind]
  · intro store2 n2 hn2 hnone
    unfold complete_task
    simp [truthy_opt_nat, truthy_opt_str, hn2, hnone]
  · intro store3
    unfold complete_task complete_task_go
    simp [truthy_opt_nat, truthy_opt_str]

/-- A concrete task row for the C8 witness. -/
def t0 : TaskRec :=
  { id := "a1", task_number := 3, title := "Rapport", status := "new", user_id := "u1" }

/-- Witness for C8: a one-task store where task number 3 carries id
`"a1"`; both identifier forms complete it identically, number 9 is a
not-found error, and no identifier at all is the required-field
error. -/
theorem complete_task_number_fallback_witness :
    complete_task [t0] { task_number := some 3 } "u1"
      = complete_task [t0] { task_id := some "a1" } "u1" ∧
    complete_task [] { task_number := some 9 } "u1"
      = ({ success := some false, error := some ("Taak #" ++ toString 9 ++ " niet gevonden") },
         ([] : TaskStore)) ∧
    complete_task [] {} "u1"
      = ({ success := some false, error := some "task_id of task_number is vereist" },
         ([] : TaskStore)) := by
  have h := complete_task_number_fallback [t0] "u1" 3 t0 none (by decide) rfl
  exact ⟨h.1, h.2.1 [] 9 (by decide) rfl, h.2.2 []⟩

/-- C9: whenever `_extract_basic_params` resolves a weekday name (none
of the `morgen`/`overmorgen`/`vandaag` branches fires and a weekday of
`DAYS_NL` occurs in the text), the resulting `date_hint` lies strictly
after "today" by 1 to 7 days — never 0 or negative — and is exactly 7
days ahead when today already is the named weekday. -/
theorem weekday_resolution_always_forward (today : Nat) (text : String)
    (day_name : String) (day_num : Nat)
    (hm : contains_sub "morgen" (ascii_lower text) = false)
    (ho : contains_sub "overmorgen" (ascii_lower text) = false)
    (hv : contains_sub "vandaag" (ascii_lower text) = false)
    (hd : days_nl.find? (fun p => contains_sub p.1 (ascii_lower text))
        = some (day_name, day_num)) :
    ∃ k : Nat, 1 ≤ k ∧ k ≤ 7 ∧ (day_num = py_weekday today → k = 7) ∧
      (extract_basic_params today text).date_hint = some (iso_date (today + k)) ∧
      (extract_basic_params today text).date_type = some day_name := by
  have hmem : (day_name, day_num) ∈ days_nl := List.mem_of_find?_eq_some hd
  have h6 : day_num ≤ 6 := by
    simp only [days_nl, List.mem_cons, List.not_mem_nil, or_false, Prod.mk.injEq] at hmem
    rcases hmem with ⟨-, h⟩ | ⟨-, h⟩ | ⟨-, h⟩ | ⟨-, h⟩ | ⟨-, h⟩ | ⟨-, h⟩ | ⟨-, h⟩ <;> omega
  have hw : py_weekday today ≤ 6 := by
    have := Nat.mod_lt (today + 3) (show 0 < 7 by omega)
    unfold py_weekday
    omega
  refine ⟨(if (day_num : Int) - (py_weekday today : Int) ≤ 0 then
      (day_num : Int) - (py_weekday today : Int) + 7
    else (day_num : Int) - (py_weekday today : Int)).toNat, ?_, ?_, ?_, ?_, ?_⟩
  · split <;> omega
  · split <;> omega
  · intro heq
    rw [heq]
    simp
  · unfold extract_basic_params
    simp only [hm, ho, hv, hd, Bool.false_eq_true, if_false]
  · unfold extract_basic_params
    simp only [hm, ho, hv, hd, Bool.false_eq_true, if_false]

/-- Witness for C9: on 2024-10-04 (a Friday, day 20000) the text
`"zaterdag"` resolves one day forward. -/
theorem weekday_resolution_always_forward_witness :
    ∃ k : Nat, 1 ≤ k ∧ k ≤ 7 ∧ (5 = py_weekday 20000 → k = 7) ∧
      (extract_basic_params 20000 "zaterdag").date_hint = some (iso_date (20000 + k)) ∧
      (extract_basic_params 20000 "zaterdag").date_type = some "zaterdag" :=
  weekday_resolution_always_forward 20000 "zaterdag" "zaterdag" 5
    (by decide) (by decide) (by decide) (by decide)
